import Mathlib

/-!
Shallow embedding of `src/app/services/trading_service.py` (class `TradingService`)
from the repository `rangeryu/quant-qmt-proxy`.

Modelling conventions:
* Python floats that only ever hold exact decimal constants are modelled as `ℚ`.
* `datetime.now()` and timestamps are modelled as `Nat` (epoch seconds), passed
  explicitly to each operation that reads the clock.
* The external `xtquant` client is an opaque collaborator; each call site takes
  an oracle argument describing the outcome of the external call
  (`ExtQuery`/`Except`), and every operation additionally returns the list of
  external calls it performed (`List ExtCall`), so that "never contacts the
  external execution client" is expressible as an empty trace.
* Python `dict` (insertion ordered) is modelled as an association list with
  `dictGet` / `dictSet`; `dictSet` updates in place, preserving position,
  exactly like assignment to an existing key.
* A raised `TradingServiceException msg` is modelled as `Except.error msg`.
* The data classes of `app/models/trading_models.py` are not under `src/`;
  their shapes are modelled from the spec's data model (section 3).  Enum
  string values (`OrderStatus.SUBMITTED.value` etc.) are modelled directly by
  their strings, which is what the service code compares and stores.
-/

/-- Operating mode of the gateway: `XTQuantMode` in `app/config`.
Modelled from the spec: mode ∈ \x7bMOCK, DEV, PROD\x7d. -/
inductive XTQuantMode
  | mock
  | dev
  | prod
deriving DecidableEq, Repr

/-- Modelled from the spec: the `trading` sub-configuration holding the
"allow real trading" flag (`settings.xtquant.trading.allow_real_trading`). -/
structure TradingFlags where
  allow_real_trading : Bool
deriving DecidableEq, Repr

/-- Modelled from the spec: the `xtquant` sub-configuration holding the mode
and the trading flags (`settings.xtquant`). -/
structure XtquantSettings where
  mode : XTQuantMode
  trading : TradingFlags
deriving DecidableEq, Repr

/-- Modelled from the spec: the process-wide `Settings` object consumed by
`TradingService`. -/
structure Settings where
  xtquant : XtquantSettings
deriving DecidableEq, Repr

/-- Modelled from the spec: `ConnectRequest` (account id plus credentials). -/
structure ConnectRequest where
  account_id : String
  password : String
  client_id : String
deriving DecidableEq, Repr

/-- Modelled from the spec: `AccountInfo` snapshot. -/
structure AccountInfo where
  account_id : String
  account_type : String
  account_name : String
  status : String
  balance : ℚ
  available_balance : ℚ
  frozen_balance : ℚ
  market_value : ℚ
  total_asset : ℚ
deriving DecidableEq, Repr

/-- Modelled from the spec: `ConnectResponse` (success flag, message, and the
optional session id / account info, absent on failure). -/
structure ConnectResponse where
  success : Bool
  message : String
  session_id : Option String
  account_info : Option AccountInfo
deriving DecidableEq, Repr

/-- Modelled from the spec: order side enum; `.value` is the Python enum's
string value used by the service code. -/
inductive OrderSide
  | BUY
  | SELL
deriving DecidableEq, Repr

def OrderSide.value : OrderSide → String
  | .BUY => "BUY"
  | .SELL => "SELL"

/-- Modelled from the spec: order type enum (LIMIT/MARKET). -/
inductive OrderTypeEnum
  | LIMIT
  | MARKET
deriving DecidableEq, Repr

def OrderTypeEnum.value : OrderTypeEnum → String
  | .LIMIT => "LIMIT"
  | .MARKET => "MARKET"

/-- Modelled from the spec: `OrderRequest`. -/
structure OrderRequest where
  stock_code : String
  side : OrderSide
  order_type : OrderTypeEnum
  volume : Nat
  price : ℚ
deriving DecidableEq, Repr

/-- Modelled from the spec: `OrderResponse`; `status` holds the enum's string
value, `average_price` is absent (None) when there are zero fills. -/
structure OrderResponse where
  order_id : String
  stock_code : String
  side : String
  order_type : String
  volume : Nat
  price : ℚ
  status : String
  submitted_time : Nat
  filled_volume : Nat
  average_price : Option ℚ
deriving DecidableEq, Repr

/-- Modelled from the spec: `CancelOrderRequest`. -/
structure CancelOrderRequest where
  order_id : String
deriving DecidableEq, Repr

/-- Modelled from the spec: `PositionInfo`. -/
structure PositionInfo where
  stock_code : String
  stock_name : String
  volume : Nat
  available_volume : Nat
  frozen_volume : Nat
  cost_price : ℚ
  market_price : ℚ
  market_value : ℚ
  profit_loss : ℚ
  profit_loss_ratio : ℚ
deriving DecidableEq, Repr

/-- Modelled from the spec: `TradeInfo`. -/
structure TradeInfo where
  trade_id : String
  order_id : String
  stock_code : String
  side : String
  volume : Nat
  price : ℚ
  amount : ℚ
  trade_time : Nat
  commission : ℚ
deriving DecidableEq, Repr

/-- Modelled from the spec: `AssetInfo`. -/
structure AssetInfo where
  total_asset : ℚ
  market_value : ℚ
  cash : ℚ
  frozen_cash : ℚ
  available_cash : ℚ
  profit_loss : ℚ
  profit_loss_ratio : ℚ
deriving DecidableEq, Repr

/-- Modelled from the spec: `RiskInfo` (synthetic placeholder record). -/
structure RiskInfo where
  position_ratio : ℚ
  cash_ratio : ℚ
  max_drawdown : ℚ
  var_95 : ℚ
  var_99 : ℚ
deriving DecidableEq, Repr

/-- Modelled from the spec: `StrategyInfo` (synthetic placeholder record). -/
structure StrategyInfo where
  strategy_name : String
  strategy_type : String
  status : String
  created_time : Nat
  last_update_time : Nat
  parameters : List (String × ℚ)
deriving DecidableEq, Repr

/-- External `XtPosition` record (fields read by `_convert_xt_position`);
`Option` fields are the ones accessed through `getattr` with a default. -/
structure XtPosition where
  stock_code : String
  instrument_name : Option String
  volume : Nat
  can_use_volume : Nat
  frozen_volume : Nat
  avg_price : ℚ
  last_price : Option ℚ
  market_value : ℚ
  float_profit : Option ℚ
  profit_rate : Option ℚ
deriving DecidableEq, Repr

/-- External `XtOrder` record (fields read by `_convert_xt_order`).
`order_time` is optional: the code guards `if xt_order.order_time and ...`. -/
structure XtOrder where
  order_id : Int
  stock_code : String
  order_type : Int
  price_type : Int
  order_status : Int
  order_time : Option Int
  order_volume : Nat
  price : ℚ
  traded_volume : Nat
  traded_price : ℚ
deriving DecidableEq, Repr

/-- External `XtTrade` record (fields read by `_convert_xt_trade`);
`commission` is accessed through `getattr` with default 0.0. -/
structure XtTrade where
  traded_id : Int
  order_id : Int
  stock_code : String
  order_type : Int
  traded_volume : Nat
  traded_price : ℚ
  traded_amount : ℚ
  traded_time : Option Int
  commission : Option ℚ
deriving DecidableEq, Repr

/-- External `XtAsset` record (fields read by `get_asset_info`). -/
structure XtAsset where
  cash : ℚ
  frozen_cash : ℚ
  market_value : ℚ
  total_asset : ℚ
deriving DecidableEq, Repr

/-- One call made against the external `xtquant` collaborator. -/
inductive ExtCall
  | mkStockAccount (account_id : String)
  | queryStockPositions (account_id : String)
  | queryStockOrders (account_id : String)
  | queryStockTrades (account_id : String)
  | queryStockAsset (account_id : String)
  | orderStock (session_id stock_code side : String) (volume : Nat) (price : ℚ)
      (order_type : String)
  | cancelOrderStock (session_id order_id : String)
deriving DecidableEq, Repr

/-- Outcome of an external query: a value, Python `None`, or a raised
exception. -/
inductive ExtQuery (α : Type)
  | ok (a : α)
  | nullRes
  | raises (msg : String)
deriving DecidableEq, Repr

/-- Static facts about the external environment: whether the `xtquant`
package imported (`XTQUANT_AVAILABLE`), and which optional `xtconstant`
constants resolve (`hasattr` checks in the converters). -/
structure ExtEnv where
  available : Bool
  stock_sell : Option Int
  latest_price : Option Int
deriving DecidableEq, Repr

/-- Per-session state stored in `_connected_accounts`. -/
structure SessionData where
  account_info : AccountInfo
  connected_time : Nat
deriving DecidableEq, Repr

/-- The mutable state of a `TradingService` instance. -/
structure TradingState where
  initialized : Bool
  connected_accounts : List (String × SessionData)
  orders : List (String × OrderResponse)
  trades : List (String × TradeInfo)
  order_counter : Nat
deriving DecidableEq, Repr

/-- Python `dict` lookup on an insertion-ordered association list. -/
def dictGet {α : Type} : List (String × α) → String → Option α
  | [], _ => none
  | (k', v) :: rest, k => if k = k' then some v else dictGet rest k

/-- Python `dict` assignment: updates an existing key in place (keeping its
position) or appends a new binding at the end. -/
def dictSet {α : Type} : List (String × α) → String → α → List (String × α)
  | [], k, v => [(k, v)]
  | (k', v') :: rest, k, v =>
      if k = k' then (k, v) :: rest else (k', v') :: dictSet rest k v

namespace TradingService

/-- `TradingService._should_use_real_trading`: true iff mode is PROD and the
allow-real-trading flag is set. -/
def should_use_real_trading (s : Settings) : Bool :=
  if s.xtquant.mode = XTQuantMode.prod then s.xtquant.trading.allow_real_trading
  else false

/-- `TradingService._should_use_real_data`: true iff mode is DEV or PROD. -/
def should_use_real_data (s : Settings) : Bool :=
  match s.xtquant.mode with
  | .dev => true
  | .prod => true
  | .mock => false

/-- `TradingService._try_initialize` (renamed): `_initialized` is false when
`xtquant` is unavailable or the mode is MOCK, and true otherwise (the actual
connect call in the source is commented out, so the `try` block cannot fail). -/
def try_init (available : Bool) (s : Settings) : Bool :=
  if available = false then false
  else if s.xtquant.mode = XTQuantMode.mock then false
  else true

/-- `TradingService.__init__`: empty stores, order counter seeded at 1000. -/
def init_state (available : Bool) (s : Settings) : TradingState :=
  { initialized := try_init available s
    connected_accounts := []
    orders := []
    trades := []
    order_counter := 1000 }

/-- The status-code table of `_convert_xt_order`:
`status_map.get(xt_order.order_status, "PENDING")`. -/
def xt_status_map (code : Int) : String :=
  if code = 48 then "PENDING"
  else if code = 49 then "PENDING"
  else if code = 50 then "SUBMITTED"
  else if code = 51 then "SUBMITTED"
  else if code = 52 then "PARTIAL_FILLED"
  else if code = 53 then "CANCELLED"
  else if code = 54 then "CANCELLED"
  else if code = 55 then "PARTIAL_FILLED"
  else if code = 56 then "FILLED"
  else if code = 57 then "REJECTED"
  else "PENDING"

/-- Side mapping shared by `_convert_xt_order` / `_convert_xt_trade`:
SELL when the external type code matches the resolvable `STOCK_SELL`
constant, or (elif) falls in the fallback set \x7b24, 25\x7d; BUY otherwise. -/
def xt_side (env : ExtEnv) (order_type : Int) : String :=
  if env.stock_sell = some order_type ∨ order_type = 24 ∨ order_type = 25 then "SELL"
  else "BUY"

/-- Timestamp normalization shared by the converters: an external epoch field,
when present and > 0, is used; otherwise the current time. -/
def xt_time (now : Nat) (t : Option Int) : Nat :=
  match t with
  | some v => if 0 < v then v.toNat else now
  | none => now

/-- `TradingService._convert_xt_position`. -/
def convert_xt_position (p : XtPosition) : PositionInfo :=
  { stock_code := p.stock_code
    stock_name := p.instrument_name.getD ""
    volume := p.volume
    available_volume := p.can_use_volume
    frozen_volume := p.frozen_volume
    cost_price := p.avg_price
    market_price := p.last_price.getD 0
    market_value := p.market_value
    profit_loss := p.float_profit.getD 0
    profit_loss_ratio := p.profit_rate.getD 0 }

/-- `TradingService._convert_xt_order`. -/
def convert_xt_order (env : ExtEnv) (now : Nat) (o : XtOrder) : OrderResponse :=
  { order_id := toString o.order_id
    stock_code := o.stock_code
    side := xt_side env o.order_type
    order_type := if env.latest_price = some o.price_type then "MARKET" else "LIMIT"
    volume := o.order_volume
    price := o.price
    status := xt_status_map o.order_status
    submitted_time := xt_time now o.order_time
    filled_volume := o.traded_volume
    average_price := if 0 < o.traded_price then some o.traded_price else none }

/-- `TradingService._convert_xt_trade`. -/
def convert_xt_trade (env : ExtEnv) (now : Nat) (t : XtTrade) : TradeInfo :=
  { trade_id := toString t.traded_id
    order_id := toString t.order_id
    stock_code := t.stock_code
    side := xt_side env t.order_type
    volume := t.traded_volume
    price := t.traded_price
    amount := t.traded_amount
    trade_time := xt_time now t.traded_time
    commission := t.commission.getD 0 }

/-- The session-id format of `connect_account`:
`f"session_\x7brequest.account_id\x7d_\x7bdatetime.now().timestamp()\x7d"`. -/
def mk_session_id (account_id : String) (now : Nat) : String :=
  "session_" ++ account_id ++ "_" ++ toString now

/-- The synthesized `AccountInfo` of `connect_account` (fixed balances). -/
def mk_account_info (account_id : String) : AccountInfo :=
  { account_id := account_id
    account_type := "SECURITY"
    account_name := "账户" ++ account_id
    status := "CONNECTED"
    balance := 1000000
    available_balance := 950000
    frozen_balance := 50000
    market_value := 800000
    total_asset := 1800000 }

/-- `TradingService.connect_account`: synthesizes the account info, registers
the session, and returns a success response; the external connect call in the
source is commented out, so no external call is made and the `except` branch
(success=false) is unreachable. -/
def connect_account (now : Nat) (st : TradingState) (req : ConnectRequest) :
    ConnectResponse × TradingState × List ExtCall :=
  let account_info := mk_account_info req.account_id
  let session_id := mk_session_id req.account_id now
  ({ success := true
     message := "账户连接成功"
     session_id := some session_id
     account_info := some account_info },
   { st with connected_accounts :=
      dictSet st.connected_accounts session_id ⟨account_info, now⟩ },
   [])

/-- `TradingService.is_connected`. -/
def is_connected (st : TradingState) (session_id : String) : Bool :=
  (dictGet st.connected_accounts session_id).isSome

/-- `TradingService.get_account_info`. -/
def get_account_info (st : TradingState) (session_id : String) :
    Except String AccountInfo × TradingState × List ExtCall :=
  match dictGet st.connected_accounts session_id with
  | none => (.error "账户未连接", st, [])
  | some sess => (.ok sess.account_info, st, [])

/-- `TradingService._get_stock_account`: `None` when `xtquant` is unavailable
or construction fails (`acct_ok` is the oracle for the `StockAccount`
constructor); otherwise the account handle (its account id). -/
def get_stock_account (env : ExtEnv) (acct_ok : Bool) (st : TradingState)
    (session_id : String) : Option String × List ExtCall :=
  if env.available then
    match dictGet st.connected_accounts session_id with
    | some sess =>
        if acct_ok then
          (some sess.account_info.account_id,
           [.mkStockAccount sess.account_info.account_id])
        else (none, [.mkStockAccount sess.account_info.account_id])
    | none => (none, [])
  else (none, [])

/-- The canned fallback positions of `get_positions`. -/
def mock_positions : List PositionInfo :=
  [{ stock_code := "000001.SZ"
     stock_name := "平安银行"
     volume := 10000
     available_volume := 10000
     frozen_volume := 0
     cost_price := 12.50
     market_price := 13.20
     market_value := 132000
     profit_loss := 7000
     profit_loss_ratio := 0.056 },
   { stock_code := "000002.SZ"
     stock_name := "万科A"
     volume := 5000
     available_volume := 5000
     frozen_volume := 0
     cost_price := 18.80
     market_price := 19.50
     market_value := 97500
     profit_loss := 3500
     profit_loss_ratio := 0.037 }]

/-- `TradingService.get_positions`. -/
def get_positions (env : ExtEnv) (cfg : Settings) (acct_ok : Bool)
    (q : ExtQuery (List XtPosition)) (st : TradingState) (session_id : String) :
    Except String (List PositionInfo) × TradingState × List ExtCall :=
  match dictGet st.connected_accounts session_id with
  | none => (.error "账户未连接", st, [])
  | some _ =>
      if should_use_real_data cfg && st.initialized then
        match get_stock_account env acct_ok st session_id with
        | (some a, tr) =>
            match q with
            | .ok l => (.ok (l.map convert_xt_position), st, tr ++ [.queryStockPositions a])
            | .nullRes => (.ok [], st, tr ++ [.queryStockPositions a])
            | .raises _ => (.ok mock_positions, st, tr ++ [.queryStockPositions a])
        | (none, tr) => (.ok mock_positions, st, tr)
      else (.ok mock_positions, st, [])

/-- `TradingService._get_mock_order_response`: allocates the next mock order
id, stores the synthesized SUBMITTED response, bumps the counter. -/
def get_mock_order_response (now : Nat) (st : TradingState) (req : OrderRequest) :
    OrderResponse × TradingState :=
  let order_id := "mock_order_" ++ toString st.order_counter
  let resp : OrderResponse :=
    { order_id := order_id
      stock_code := req.stock_code
      side := req.side.value
      order_type := req.order_type.value
      volume := req.volume
      price := req.price
      status := "SUBMITTED"
      submitted_time := now
      filled_volume := 0
      average_price := none }
  (resp,
   { st with
      order_counter := st.order_counter + 1
      orders := dictSet st.orders order_id resp })

/-- `TradingService.submit_order`.  `valid` is the external
`validate_stock_code` predicate; `ext` is the outcome oracle for
`xttrader.order_stock` (the returned external order id, or a raise). -/
def submit_order (valid : String → Bool) (cfg : Settings) (now : Nat)
    (ext : Except String String) (st : TradingState) (session_id : String)
    (req : OrderRequest) :
    Except String OrderResponse × TradingState × List ExtCall :=
  match dictGet st.connected_accounts session_id with
  | none => (.error "账户未连接", st, [])
  | some _ =>
      if valid req.stock_code = false then
        (.error ("提交订单失败: 无效的股票代码: " ++ req.stock_code), st, [])
      else if should_use_real_trading cfg = false then
        let (resp, st') := get_mock_order_response now st req
        (.ok resp, st', [])
      else
        let call := ExtCall.orderStock session_id req.stock_code req.side.value
          req.volume req.price req.order_type.value
        match ext with
        | .error msg => (.error ("提交订单失败: " ++ msg), st, [call])
        | .ok order_id =>
            let resp : OrderResponse :=
              { order_id := order_id
                stock_code := req.stock_code
                side := req.side.value
                order_type := req.order_type.value
                volume := req.volume
                price := req.price
                status := "SUBMITTED"
                submitted_time := now
                filled_volume := 0
                average_price := none }
            (.ok resp, { st with orders := dictSet st.orders order_id resp }, [call])

/-- The in-place status mutation `self._orders[oid].status = s`, a no-op when
the id is absent (the call sites guard membership). -/
def set_order_status (orders : List (String × OrderResponse)) (order_id : String)
    (s : String) : List (String × OrderResponse) :=
  match dictGet orders order_id with
  | some r => dictSet orders order_id { r with status := s }
  | none => orders

/-- `TradingService.cancel_order`.  `ext` is the outcome oracle for
`xttrader.cancel_order_stock`. -/
def cancel_order (cfg : Settings) (ext : Except String Bool) (st : TradingState)
    (session_id : String) (req : CancelOrderRequest) :
    Except String Bool × TradingState × List ExtCall :=
  match dictGet st.connected_accounts session_id with
  | none => (.error "账户未连接", st, [])
  | some _ =>
      if should_use_real_trading cfg = false then
        (.ok true,
         { st with orders := set_order_status st.orders req.order_id "CANCELLED" },
         [])
      else if (dictGet st.orders req.order_id).isSome = false then
        (.error "撤销订单失败: 订单不存在", st, [])
      else
        match ext with
        | .error msg =>
            (.error ("撤销订单失败: " ++ msg), st,
             [.cancelOrderStock session_id req.order_id])
        | .ok b =>
            (.ok b,
             { st with orders :=
                if b then set_order_status st.orders req.order_id "CANCELLED"
                else st.orders },
             [.cancelOrderStock session_id req.order_id])

/-- `TradingService.get_orders`: degraded lookups fall back to the in-memory
Order Book (`list(self._orders.values())`), not to canned samples. -/
def get_orders (env : ExtEnv) (cfg : Settings) (now : Nat) (acct_ok : Bool)
    (q : ExtQuery (List XtOrder)) (st : TradingState) (session_id : String) :
    Except String (List OrderResponse) × TradingState × List ExtCall :=
  match dictGet st.connected_accounts session_id with
  | none => (.error "账户未连接", st, [])
  | some _ =>
      if should_use_real_data cfg && st.initialized then
        match get_stock_account env acct_ok st session_id with
        | (some a, tr) =>
            match q with
            | .ok l =>
                (.ok (l.map (convert_xt_order env now)), st, tr ++ [.queryStockOrders a])
            | .nullRes =>
                (.ok (st.orders.map Prod.snd), st, tr ++ [.queryStockOrders a])
            | .raises _ =>
                (.ok (st.orders.map Prod.snd), st, tr ++ [.queryStockOrders a])
        | (none, tr) => (.ok (st.orders.map Prod.snd), st, tr)
      else (.ok (st.orders.map Prod.snd), st, [])

/-- The canned fallback trade of `get_trades`. -/
def mock_trades (now : Nat) : List TradeInfo :=
  [{ trade_id := "trade_001"
     order_id := "order_1001"
     stock_code := "000001.SZ"
     side := "BUY"
     volume := 1000
     price := 13.20
     amount := 13200
     trade_time := now
     commission := 13.20 }]

/-- `TradingService.get_trades`. -/
def get_trades (env : ExtEnv) (cfg : Settings) (now : Nat) (acct_ok : Bool)
    (q : ExtQuery (List XtTrade)) (st : TradingState) (session_id : String) :
    Except String (List TradeInfo) × TradingState × List ExtCall :=
  match dictGet st.connected_accounts session_id with
  | none => (.error "账户未连接", st, [])
  | some _ =>
      if should_use_real_data cfg && st.initialized then
        match get_stock_account env acct_ok st session_id with
        | (some a, tr) =>
            match q with
            | .ok l =>
                (.ok (l.map (convert_xt_trade env now)), st, tr ++ [.queryStockTrades a])
            | .nullRes => (.ok [], st, tr ++ [.queryStockTrades a])
            | .raises _ => (.ok (mock_trades now), st, tr ++ [.queryStockTrades a])
        | (none, tr) => (.ok (mock_trades now), st, tr)
      else (.ok (mock_trades now), st, [])

/-- The canned fallback asset record of `get_asset_info`. -/
def mock_asset : AssetInfo :=
  { total_asset := 1800000
    market_value := 800000
    cash := 950000
    frozen_cash := 50000
    available_cash := 900000
    profit_loss := 50000
    profit_loss_ratio := 0.028 }

/-- The translation of a real `XtAsset` in `get_asset_info`. -/
def convert_xt_asset (a : XtAsset) : AssetInfo :=
  { total_asset := a.total_asset
    market_value := a.market_value
    cash := a.cash
    frozen_cash := a.frozen_cash
    available_cash := a.cash
    profit_loss := 0
    profit_loss_ratio := 0 }

/-- `TradingService.get_asset_info`. -/
def get_asset_info (env : ExtEnv) (cfg : Settings) (acct_ok : Bool)
    (q : ExtQuery XtAsset) (st : TradingState) (session_id : String) :
    Except String AssetInfo × TradingState × List ExtCall :=
  match dictGet st.connected_accounts session_id with
  | none => (.error "账户未连接", st, [])
  | some _ =>
      if should_use_real_data cfg && st.initialized then
        match get_stock_account env acct_ok st session_id with
        | (some a, tr) =>
            match q with
            | .ok asset => (.ok (convert_xt_asset asset), st, tr ++ [.queryStockAsset a])
            | .nullRes => (.ok mock_asset, st, tr ++ [.queryStockAsset a])
            | .raises _ => (.ok mock_asset, st, tr ++ [.queryStockAsset a])
        | (none, tr) => (.ok mock_asset, st, tr)
      else (.ok mock_asset, st, [])

/-- The fixed synthetic risk record of `get_risk_info`. -/
def mock_risk : RiskInfo :=
  { position_ratio := 0.44
    cash_ratio := 0.56
    max_drawdown := 0.05
    var_95 := 0.02
    var_99 := 0.03 }

/-- `TradingService.get_risk_info`. -/
def get_risk_info (st : TradingState) (session_id : String) :
    Except String RiskInfo × TradingState × List ExtCall :=
  match dictGet st.connected_accounts session_id with
  | none => (.error "账户未连接", st, [])
  | some _ => (.ok mock_risk, st, [])

/-- The fixed synthetic strategy list of `get_strategies`. -/
def mock_strategies (now : Nat) : List StrategyInfo :=
  [{ strategy_name := "MA策略"
     strategy_type := "TREND_FOLLOWING"
     status := "RUNNING"
     created_time := now
     last_update_time := now
     parameters := [("period", 20), ("threshold", 0.02)] },
   { strategy_name := "均值回归策略"
     strategy_type := "MEAN_REVERSION"
     status := "STOPPED"
     created_time := now
     last_update_time := now
     parameters := [("lookback", 10), ("entry_threshold", 0.05)] }]

/-- `TradingService.get_strategies`. -/
def get_strategies (now : Nat) (st : TradingState) (session_id : String) :
    Except String (List StrategyInfo) × TradingState × List ExtCall :=
  match dictGet st.connected_accounts session_id with
  | none => (.error "账户未连接", st, [])
  | some _ => (.ok (mock_strategies now), st, [])

end TradingService

/-! ### Association-list (Python dict) lemmas -/

theorem dictGet_dictSet_self {α : Type} (l : List (String × α)) (k : String) (v : α) :
    dictGet (dictSet l k v) k = some v := by
  induction l with
  | nil => simp [dictGet, dictSet]
  | cons hd tl ih =>
      by_cases h : k = hd.1
      · simp [dictGet, dictSet, h]
      · simp [dictGet, dictSet, h, ih]

theorem dictGet_dictSet_ne {α : Type} (l : List (String × α)) (k k' : String) (v : α)
    (h : k' ≠ k) : dictGet (dictSet l k v) k' = dictGet l k' := by
  induction l with
  | nil => simp [dictGet, dictSet, h]
  | cons hd tl ih =>
      by_cases hk : k = hd.1
      · subst hk
        simp [dictGet, dictSet, h]
      · by_cases hk' : k' = hd.1 <;> simp [dictGet, dictSet, hk, hk', ih]

theorem mem_map_snd_of_dictGet {α : Type} (l : List (String × α)) (k : String) (v : α)
    (h : dictGet l k = some v) : v ∈ l.map Prod.snd := by
  induction l with
  | nil => simp [dictGet] at h
  | cons hd tl ih =>
      by_cases hk : k = hd.1
      · simp [dictGet, hk] at h
        simp [← h]
      · simp [dictGet, hk] at h
        simp [ih h]

theorem dictGet_set_order_status_self (l : List (String × OrderResponse))
    (k : String) (s : String) :
    dictGet (TradingService.set_order_status l k s) k =
      (dictGet l k).map (fun r => { r with status := s }) := by
  unfold TradingService.set_order_status
  cases h : dictGet l k with
  | none => simp [h]
  | some r => simp [dictGet_dictSet_self]

/-! ### Decimal printing of naturals is injective

Needed for the session-id uniqueness clause: `mk_session_id` embeds the
timestamp through `toString`, i.e. `Nat.repr`. -/

/-- Decimal value of a digit character produced by `Nat.digitChar`. -/
def digitVal (c : Char) : Nat :=
  if c = '0' then 0 else if c = '1' then 1 else if c = '2' then 2
  else if c = '3' then 3 else if c = '4' then 4 else if c = '5' then 5
  else if c = '6' then 6 else if c = '7' then 7 else if c = '8' then 8
  else if c = '9' then 9 else 0

/-- Value of a big-endian decimal digit string. -/
def digitsVal (l : List Char) : Nat :=
  l.foldl (fun acc c => acc * 10 + digitVal c) 0

theorem digitVal_digitChar (d : Nat) (h : d < 10) : digitVal (Nat.digitChar d) = d := by
  interval_cases d <;> decide

theorem digitsVal_append_singleton (l : List Char) (c : Char) :
    digitsVal (l ++ [c]) = digitsVal l * 10 + digitVal c := by
  simp [digitsVal, List.foldl_append]

theorem toDigitsCore_append (n : Nat) : ∀ (f : Nat) (ds : List Char), n < f →
    Nat.toDigitsCore 10 f n ds = Nat.toDigitsCore 10 (n + 1) n [] ++ ds := by
  induction n using Nat.strong_induction_on with
  | _ n ih =>
    intro f ds hf
    cases f with
    | zero => exact absurd hf (Nat.not_lt_zero n)
    | succ f =>
        by_cases hz : n / 10 = 0
        · simp [Nat.toDigitsCore, hz]
        · have hn0 : 0 < n := by omega
          have hdiv : n / 10 < n := Nat.div_lt_self hn0 (by norm_num)
          have hf' : n / 10 < f := by omega
          simp only [Nat.toDigitsCore, hz, if_false]
          rw [ih (n / 10) hdiv f _ hf', ih (n / 10) hdiv n _ hdiv]
          simp

theorem digitsVal_toDigits (n : Nat) : digitsVal (Nat.toDigits 10 n) = n := by
  induction n using Nat.strong_induction_on with
  | _ n ih =>
    rw [Nat.toDigits]
    by_cases hz : n / 10 = 0
    · have hlt : n < 10 := by omega
      have hmod : n % 10 = n := by omega
      simp [Nat.toDigitsCore, hz, digitsVal, hmod, digitVal_digitChar n hlt]
    · have hn0 : 0 < n := by omega
      have hdiv : n / 10 < n := Nat.div_lt_self hn0 (by norm_num)
      simp only [Nat.toDigitsCore, hz, if_false]
      rw [toDigitsCore_append (n / 10) n _ hdiv]
      rw [show Nat.toDigitsCore 10 (n / 10 + 1) (n / 10) [] = Nat.toDigits 10 (n / 10) from rfl]
      rw [digitsVal_append_singleton, ih (n / 10) hdiv,
        digitVal_digitChar _ (by omega : n % 10 < 10)]
      omega

theorem nat_repr_injective {m n : Nat} (h : Nat.repr m = Nat.repr n) : m = n := by
  have hl : Nat.toDigits 10 m = Nat.toDigits 10 n := by
    rw [Nat.repr, Nat.repr] at h
    exact List.asString_inj.mp h
  have := congrArg digitsVal hl
  rwa [digitsVal_toDigits, digitsVal_toDigits] at this

theorem string_append_left_cancel {s x y : String} (h : s ++ x = s ++ y) : x = y := by
  have hd : (s ++ x).data = (s ++ y).data := by rw [h]
  simp only [String.data_append] at hd
  have hxy := List.append_cancel_left hd
  exact String.toList_inj.mp hxy

theorem mk_session_id_time_inj (a : String) {t₁ t₂ : Nat}
    (h : TradingService.mk_session_id a t₁ = TradingService.mk_session_id a t₂) :
    t₁ = t₂ := by
  unfold TradingService.mk_session_id at h
  have := string_append_left_cancel h
  exact nat_repr_injective this

/-- Degraded `get_orders`: on a connected session, when the external query
raises, the result is the Order Book contents, whatever the mode, the
availability and the account oracle. -/
theorem get_orders_raises_fallback (env : ExtEnv) (cfg : Settings) (now : Nat)
    (acct_ok : Bool) (msg : String) (st : TradingState) (session_id : String)
    (sess : SessionData)
    (hconn : dictGet st.connected_accounts session_id = some sess) :
    (TradingService.get_orders env cfg now acct_ok (.raises msg) st session_id).1 =
      .ok (st.orders.map Prod.snd) := by
  simp only [TradingService.get_orders, hconn]
  repeat' split
  all_goals rfl

/-! ### Concrete fixtures used by the witnesses -/

/-- A MOCK-mode configuration. -/
def cfgMock : Settings := ⟨⟨.mock, ⟨false⟩⟩⟩

/-- A PROD-mode configuration with the allow-real-trading flag unset. -/
def cfgProdNoFlag : Settings := ⟨⟨.prod, ⟨false⟩⟩⟩

/-- A PROD-mode configuration with the allow-real-trading flag set. -/
def cfgProdFlag : Settings := ⟨⟨.prod, ⟨true⟩⟩⟩

/-- A sample connected session. -/
def sampleSession : SessionData := ⟨TradingService.mk_account_info "U1", 0⟩

/-- A service state with one connected session `"s1"` and an empty order book. -/
def sampleState : TradingState :=
  { initialized := false
    connected_accounts := [("s1", sampleSession)]
    orders := []
    trades := []
    order_counter := 1000 }

/-- A sample valid order request (the spec's scenario order). -/
def sampleReq : OrderRequest := ⟨"600000.SH", .BUY, .LIMIT, 100, 10⟩

/-! ### Claims -/

/-- **C1**: for every configuration with mode = PROD and the allow-real-trading
flag unset, and for every mode other than PROD, `_should_use_real_trading`
returns false, and `submit_order` on a connected session with a valid
instrument code returns a synthesized OrderResponse with status SUBMITTED and
makes no external call. -/
theorem C1_prod_without_flag_follows_mock_path
    (cfg : Settings) (valid : String → Bool) (now : Nat) (ext : Except String String)
    (st : TradingState) (session_id : String) (req : OrderRequest) (sess : SessionData)
    (hmode : ¬ (cfg.xtquant.mode = XTQuantMode.prod ∧
      cfg.xtquant.trading.allow_real_trading = true))
    (hconn : dictGet st.connected_accounts session_id = some sess)
    (hvalid : valid req.stock_code = true) :
    TradingService.should_use_real_trading cfg = false ∧
    ∃ resp,
      (TradingService.submit_order valid cfg now ext st session_id req).1 = .ok resp ∧
      resp.status = "SUBMITTED" ∧
      (TradingService.submit_order valid cfg now ext st session_id req).2.2 = [] := by
  have hreal : TradingService.should_use_real_trading cfg = false := by
    unfold TradingService.should_use_real_trading
    split
    · rename_i hm
      cases hflag : cfg.xtquant.trading.allow_real_trading
      · rfl
      · exact absurd ⟨hm, hflag⟩ hmode
    · rfl
  refine ⟨hreal, (TradingService.get_mock_order_response now st req).1, ?_, ?_, ?_⟩ <;>
    simp [TradingService.submit_order, TradingService.get_mock_order_response,
      hconn, hvalid, hreal]

/-- Witness for C1 at the critical concrete input: PROD mode with the flag
unset. -/
theorem C1_prod_without_flag_follows_mock_path_witness :
    TradingService.should_use_real_trading cfgProdNoFlag = false ∧
    ∃ resp,
      (TradingService.submit_order (fun _ => true) cfgProdNoFlag 5 (.ok "ext")
        sampleState "s1" sampleReq).1 = .ok resp ∧
      resp.status = "SUBMITTED" ∧
      (TradingService.submit_order (fun _ => true) cfgProdNoFlag 5 (.ok "ext")
        sampleState "s1" sampleReq).2.2 = [] :=
  C1_prod_without_flag_follows_mock_path cfgProdNoFlag (fun _ => true) 5 (.ok "ext")
    sampleState "s1" sampleReq sampleSession (by decide) (by decide) rfl

/-- **C2**: on a connected session, when real trading is not permitted,
`cancel_order` returns true unconditionally (no external call), and if the
requested order id exists in the Order Book its status becomes CANCELLED. -/
theorem C2_cancel_always_true_without_real_trading
    (cfg : Settings) (ext : Except String Bool) (st : TradingState)
    (session_id : String) (req : CancelOrderRequest) (sess : SessionData)
    (hreal : TradingService.should_use_real_trading cfg = false)
    (hconn : dictGet st.connected_accounts session_id = some sess) :
    (TradingService.cancel_order cfg ext st session_id req).1 = .ok true ∧
    (TradingService.cancel_order cfg ext st session_id req).2.2 = [] ∧
    ∀ r, dictGet st.orders req.order_id = some r →
      dictGet (TradingService.cancel_order cfg ext st session_id req).2.1.orders
        req.order_id = some { r with status := "CANCELLED" } := by
  refine ⟨?_, ?_, ?_⟩ <;>
    simp only [TradingService.cancel_order, hconn, hreal, Bool.false_eq_true, if_true]
  intro r hr
  simp [dictGet_set_order_status_self, hr]

/-- Witness for C2 at a concrete never-seen order id. -/
theorem C2_cancel_always_true_without_real_trading_witness :
    (TradingService.cancel_order cfgMock (.error "down") sampleState "s1"
      ⟨"never_seen_id"⟩).1 = .ok true ∧
    (TradingService.cancel_order cfgMock (.error "down") sampleState "s1"
      ⟨"never_seen_id"⟩).2.2 = [] ∧
    ∀ r, dictGet sampleState.orders "never_seen_id" = some r →
      dictGet (TradingService.cancel_order cfgMock (.error "down") sampleState "s1"
        ⟨"never_seen_id"⟩).2.1.orders "never_seen_id" =
        some { r with status := "CANCELLED" } :=
  C2_cancel_always_true_without_real_trading cfgMock (.error "down") sampleState "s1"
    ⟨"never_seen_id"⟩ sampleSession (by decide) (by decide)

/-- **C3**: for a session id absent from the Session Store, every operation
other than `connect_account` and `is_connected` fails with the recoverable
NotConnected error (the exception message "账户未连接"), leaves the state
unchanged, and performs no external call. -/
theorem C3_unknown_session_is_recoverable_error
    (st : TradingState) (session_id : String)
    (h : dictGet st.connected_accounts session_id = none) :
    TradingService.get_account_info st session_id = (.error "账户未连接", st, []) ∧
    (∀ env cfg acct_ok q, TradingService.get_positions env cfg acct_ok q st session_id =
      (.error "账户未连接", st, [])) ∧
    (∀ valid cfg now ext req, TradingService.submit_order valid cfg now ext st session_id req =
      (.error "账户未连接", st, [])) ∧
    (∀ cfg ext req, TradingService.cancel_order cfg ext st session_id req =
      (.error "账户未连接", st, [])) ∧
    (∀ env cfg now acct_ok q, TradingService.get_orders env cfg now acct_ok q st session_id =
      (.error "账户未连接", st, [])) ∧
    (∀ env cfg now acct_ok q, TradingService.get_trades env cfg now acct_ok q st session_id =
      (.error "账户未连接", st, [])) ∧
    (∀ env cfg acct_ok q, TradingService.get_asset_info env cfg acct_ok q st session_id =
      (.error "账户未连接", st, [])) ∧
    TradingService.get_risk_info st session_id = (.error "账户未连接", st, []) ∧
    (∀ now, TradingService.get_strategies now st session_id = (.error "账户未连接", st, [])) := by
  refine ⟨?_, ?_, ?_, ?_, ?_, ?_, ?_, ?_, ?_⟩ <;>
    simp [TradingService.get_account_info, TradingService.get_positions,
      TradingService.submit_order, TradingService.cancel_order,
      TradingService.get_orders, TradingService.get_trades,
      TradingService.get_asset_info, TradingService.get_risk_info,
      TradingService.get_strategies, h]

/-- Witness for C3 at a concrete unknown session id. -/
theorem C3_unknown_session_is_recoverable_error_witness :
    TradingService.get_risk_info sampleState "ghost" = (.error "账户未连接", sampleState, []) ∧
    TradingService.submit_order (fun _ => true) cfgMock 5 (.ok "x") sampleState "ghost"
      sampleReq = (.error "账户未连接", sampleState, []) ∧
    TradingService.get_positions ⟨true, none, none⟩ cfgMock true (.ok []) sampleState "ghost" =
      (.error "账户未连接", sampleState, []) :=
  ⟨(C3_unknown_session_is_recoverable_error sampleState "ghost" (by decide)).2.2.2.2.2.2.2.1,
   (C3_unknown_session_is_recoverable_error sampleState "ghost" (by decide)).2.2.1
     (fun _ => true) cfgMock 5 (.ok "x") sampleReq,
   (C3_unknown_session_is_recoverable_error sampleState "ghost" (by decide)).2.1
     ⟨true, none, none⟩ cfgMock true (.ok [])⟩

/-- **C4**: on a connected session the four read operations never surface an
external failure: every outcome of the external oracle yields an `.ok`
result; when the external query raises, `get_orders` falls back to the Order
Book contents and the other three to the deterministic simulated data; the
same fallbacks apply when the external client is unavailable. -/
theorem C4_reads_degrade_never_fail
    (env : ExtEnv) (cfg : Settings) (now : Nat) (st : TradingState)
    (session_id : String) (sess : SessionData)
    (hconn : dictGet st.connected_accounts session_id = some sess) :
    (∀ acct_ok q, ∃ v,
      (TradingService.get_positions env cfg acct_ok q st session_id).1 = .ok v) ∧
    (∀ acct_ok q, ∃ v,
      (TradingService.get_orders env cfg now acct_ok q st session_id).1 = .ok v) ∧
    (∀ acct_ok q, ∃ v,
      (TradingService.get_trades env cfg now acct_ok q st session_id).1 = .ok v) ∧
    (∀ acct_ok q, ∃ v,
      (TradingService.get_asset_info env cfg acct_ok q st session_id).1 = .ok v) ∧
    (∀ acct_ok msg,
      (TradingService.get_orders env cfg now acct_ok (.raises msg) st session_id).1 =
        .ok (st.orders.map Prod.snd) ∧
      (TradingService.get_positions env cfg acct_ok (.raises msg) st session_id).1 =
        .ok TradingService.mock_positions ∧
      (TradingService.get_trades env cfg now acct_ok (.raises msg) st session_id).1 =
        .ok (TradingService.mock_trades now) ∧
      (TradingService.get_asset_info env cfg acct_ok (.raises msg) st session_id).1 =
        .ok TradingService.mock_asset) ∧
    (env.available = false → ∀ acct_ok qo qp qt qa,
      (TradingService.get_orders env cfg now acct_ok qo st session_id).1 =
        .ok (st.orders.map Prod.snd) ∧
      (TradingService.get_positions env cfg acct_ok qp st session_id).1 =
        .ok TradingService.mock_positions ∧
      (TradingService.get_trades env cfg now acct_ok qt st session_id).1 =
        .ok (TradingService.mock_trades now) ∧
      (TradingService.get_asset_info env cfg acct_ok qa st session_id).1 =
        .ok TradingService.mock_asset) := by
  refine ⟨?_, ?_, ?_, ?_, ?_, ?_⟩
  · intro acct_ok q
    simp only [TradingService.get_positions, hconn]
    repeat' split
    all_goals exact ⟨_, rfl⟩
  · intro acct_ok q
    simp only [TradingService.get_orders, hconn]
    repeat' split
    all_goals exact ⟨_, rfl⟩
  · intro acct_ok q
    simp only [TradingService.get_trades, hconn]
    repeat' split
    all_goals exact ⟨_, rfl⟩
  · intro acct_ok q
    simp only [TradingService.get_asset_info, hconn]
    repeat' split
    all_goals exact ⟨_, rfl⟩
  · intro acct_ok msg
    refine ⟨?_, ?_, ?_, ?_⟩ <;>
      · simp only [TradingService.get_orders, TradingService.get_positions,
          TradingService.get_trades, TradingService.get_asset_info, hconn]
        repeat' split
        all_goals rfl
  · intro hav acct_ok qo qp qt qa
    refine ⟨?_, ?_, ?_, ?_⟩ <;>
      · simp only [TradingService.get_orders, TradingService.get_positions,
          TradingService.get_trades, TradingService.get_asset_info, hconn,
          TradingService.get_stock_account, hav, Bool.false_eq_true, if_false]
        repeat' split
        all_goals rfl

/-- Witness for C4: DEV mode with an initialized client whose query raises. -/
theorem C4_reads_degrade_never_fail_witness :
    (TradingService.get_orders ⟨true, none, none⟩ ⟨⟨.dev, ⟨false⟩⟩⟩ 9 true
      (.raises "boom") { sampleState with initialized := true } "s1").1 =
      .ok ({ sampleState with initialized := true }.orders.map Prod.snd) ∧
    (TradingService.get_positions ⟨true, none, none⟩ ⟨⟨.dev, ⟨false⟩⟩⟩ true
      (.raises "boom") { sampleState with initialized := true } "s1").1 =
      .ok TradingService.mock_positions ∧
    (TradingService.get_trades ⟨true, none, none⟩ ⟨⟨.dev, ⟨false⟩⟩⟩ 9 true
      (.raises "boom") { sampleState with initialized := true } "s1").1 =
      .ok (TradingService.mock_trades 9) ∧
    (TradingService.get_asset_info ⟨true, none, none⟩ ⟨⟨.dev, ⟨false⟩⟩⟩ true
      (.raises "boom") { sampleState with initialized := true } "s1").1 =
      .ok TradingService.mock_asset :=
  (C4_reads_degrade_never_fail ⟨true, none, none⟩ ⟨⟨.dev, ⟨false⟩⟩⟩ 9
    { sampleState with initialized := true } "s1" sampleSession (by decide)).2.2.2.2.1
    true "boom"

/-- **C5**: on a connected session with real trading permitted and a valid
instrument code, a raising external submission surfaces an error carrying the
underlying cause text and leaves the whole state (in particular the Order
Book) unchanged; a successful external submission stores and returns the
canonical SUBMITTED response. -/
theorem C5_real_submit_atomic
    (cfg : Settings) (valid : String → Bool) (now : Nat) (st : TradingState)
    (session_id : String) (req : OrderRequest) (sess : SessionData)
    (hconn : dictGet st.connected_accounts session_id = some sess)
    (hvalid : valid req.stock_code = true)
    (hreal : TradingService.should_use_real_trading cfg = true) :
    (∀ msg,
      (TradingService.submit_order valid cfg now (.error msg) st session_id req).1 =
        .error ("提交订单失败: " ++ msg) ∧
      (TradingService.submit_order valid cfg now (.error msg) st session_id req).2.1 = st) ∧
    (∀ order_id,
      (TradingService.submit_order valid cfg now (.ok order_id) st session_id req).1 =
        .ok { order_id := order_id
              stock_code := req.stock_code
              side := req.side.value
              order_type := req.order_type.value
              volume := req.volume
              price := req.price
              status := "SUBMITTED"
              submitted_time := now
              filled_volume := 0
              average_price := none } ∧
      dictGet (TradingService.submit_order valid cfg now (.ok order_id) st
          session_id req).2.1.orders order_id =
        some { order_id := order_id
               stock_code := req.stock_code
               side := req.side.value
               order_type := req.order_type.value
               volume := req.volume
               price := req.price
               status := "SUBMITTED"
               submitted_time := now
               filled_volume := 0
               average_price := none }) := by
  constructor
  · intro msg
    refine ⟨?_, ?_⟩ <;>
      simp [TradingService.submit_order, hconn, hvalid, hreal]
  · intro order_id
    refine ⟨?_, ?_⟩ <;>
      simp [TradingService.submit_order, hconn, hvalid, hreal, dictGet_dictSet_self]

/-- Witness for C5: PROD with the flag set, both a raising and a succeeding
external submission. -/
theorem C5_real_submit_atomic_witness :
    (TradingService.submit_order (fun _ => true) cfgProdFlag 5 (.error "broker down")
      sampleState "s1" sampleReq).1 = .error ("提交订单失败: " ++ "broker down") ∧
    (TradingService.submit_order (fun _ => true) cfgProdFlag 5 (.error "broker down")
      sampleState "s1" sampleReq).2.1 = sampleState ∧
    (TradingService.submit_order (fun _ => true) cfgProdFlag 5 (.ok "X99")
      sampleState "s1" sampleReq).1 =
      .ok { order_id := "X99"
            stock_code := sampleReq.stock_code
            side := sampleReq.side.value
            order_type := sampleReq.order_type.value
            volume := sampleReq.volume
            price := sampleReq.price
            status := "SUBMITTED"
            submitted_time := 5
            filled_volume := 0
            average_price := none } :=
  ⟨((C5_real_submit_atomic cfgProdFlag (fun _ => true) 5 sampleState "s1" sampleReq
      sampleSession (by decide) rfl (by decide)).1 "broker down").1,
   ((C5_real_submit_atomic cfgProdFlag (fun _ => true) 5 sampleState "s1" sampleReq
      sampleSession (by decide) rfl (by decide)).1 "broker down").2,
   ((C5_real_submit_atomic cfgProdFlag (fun _ => true) 5 sampleState "s1" sampleReq
      sampleSession (by decide) rfl (by decide)).2 "X99").1⟩

/-- **C6**: the order-status translation table: 56 → FILLED, 54 → CANCELLED,
57 → REJECTED; the fixed table covers the ten codes 48..57; every code
outside the table (e.g. 0 and 100) maps to PENDING. -/
theorem C6_status_code_table :
    (∀ c : Int, c < 48 ∨ 57 < c → TradingService.xt_status_map c = "PENDING") ∧
    TradingService.xt_status_map 48 = "PENDING" ∧
    TradingService.xt_status_map 49 = "PENDING" ∧
    TradingService.xt_status_map 50 = "SUBMITTED" ∧
    TradingService.xt_status_map 51 = "SUBMITTED" ∧
    TradingService.xt_status_map 52 = "PARTIAL_FILLED" ∧
    TradingService.xt_status_map 53 = "CANCELLED" ∧
    TradingService.xt_status_map 54 = "CANCELLED" ∧
    TradingService.xt_status_map 55 = "PARTIAL_FILLED" ∧
    TradingService.xt_status_map 56 = "FILLED" ∧
    TradingService.xt_status_map 57 = "REJECTED" ∧
    TradingService.xt_status_map 0 = "PENDING" ∧
    TradingService.xt_status_map 100 = "PENDING" := by
  refine ⟨?_, by decide⟩
  intro c hc
  unfold TradingService.xt_status_map
  split_ifs <;> first | rfl | (exfalso; omega)

/-- Witness for C6: the out-of-table boundary codes. -/
theorem C6_status_code_table_witness :
    TradingService.xt_status_map 0 = "PENDING" ∧
    TradingService.xt_status_map 100 = "PENDING" ∧
    TradingService.xt_status_map (-1) = "PENDING" ∧
    TradingService.xt_status_map 58 = "PENDING" :=
  ⟨C6_status_code_table.1 0 (by decide), C6_status_code_table.1 100 (by decide),
   C6_status_code_table.1 (-1) (by decide), C6_status_code_table.1 58 (by decide)⟩

/-- **C7**: the mock-id counter is seeded at 1000 by `__init__`; a mock
submission returns id `"mock_order_" ++ counter` and the next one
`"mock_order_" ++ (counter+1)`, so the numeric suffix strictly increases
across successive mock submissions. -/
theorem C7_mock_order_id_counter
    (available : Bool) (cfg0 : Settings) (valid : String → Bool) (cfg : Settings)
    (now₁ now₂ : Nat) (ext₁ ext₂ : Except String String) (st : TradingState)
    (session_id : String) (req₁ req₂ : OrderRequest) (sess : SessionData)
    (hconn : dictGet st.connected_accounts session_id = some sess)
    (hv₁ : valid req₁.stock_code = true) (hv₂ : valid req₂.stock_code = true)
    (hreal : TradingService.should_use_real_trading cfg = false) :
    (TradingService.init_state available cfg0).order_counter = 1000 ∧
    ∃ r₁ r₂,
      (TradingService.submit_order valid cfg now₁ ext₁ st session_id req₁).1 = .ok r₁ ∧
      (TradingService.submit_order valid cfg now₂ ext₂
        (TradingService.submit_order valid cfg now₁ ext₁ st session_id req₁).2.1
        session_id req₂).1 = .ok r₂ ∧
      r₁.order_id = "mock_order_" ++ toString st.order_counter ∧
      r₂.order_id = "mock_order_" ++ toString (st.order_counter + 1) ∧
      st.order_counter < st.order_counter + 1 := by
  refine ⟨rfl, ?_⟩
  have hsub₁ : TradingService.submit_order valid cfg now₁ ext₁ st session_id req₁ =
      (.ok (TradingService.get_mock_order_response now₁ st req₁).1,
       (TradingService.get_mock_order_response now₁ st req₁).2, []) := by
    simp [TradingService.submit_order, hconn, hv₁, hreal]
  have hconn₂ : dictGet (TradingService.get_mock_order_response now₁ st req₁).2.connected_accounts
      session_id = some sess := hconn
  have hsub₂ : TradingService.submit_order valid cfg now₂ ext₂
      (TradingService.get_mock_order_response now₁ st req₁).2 session_id req₂ =
      (.ok (TradingService.get_mock_order_response now₂
              (TradingService.get_mock_order_response now₁ st req₁).2 req₂).1,
       (TradingService.get_mock_order_response now₂
              (TradingService.get_mock_order_response now₁ st req₁).2 req₂).2, []) := by
    simp [TradingService.submit_order, hconn₂, hv₂, hreal]
  refine ⟨_, _, by rw [hsub₁], by rw [hsub₁]; exact congrArg (·.1) hsub₂, rfl, rfl,
    Nat.lt_succ_self _⟩

/-- Witness for C7: fresh service, connect, then two mock submissions yield
"mock_order_1000" and "mock_order_1001". -/
theorem C7_mock_order_id_counter_witness :
    (TradingService.init_state false cfgMock).order_counter = 1000 ∧
    ∃ r₁ r₂,
      (TradingService.submit_order (fun _ => true) cfgMock 8 (.ok "x")
        (TradingService.connect_account 7 (TradingService.init_state false cfgMock)
          ⟨"U1", "pw", "c"⟩).2.1
        (TradingService.mk_session_id "U1" 7) sampleReq).1 = .ok r₁ ∧
      (TradingService.submit_order (fun _ => true) cfgMock 9 (.ok "x")
        (TradingService.submit_order (fun _ => true) cfgMock 8 (.ok "x")
          (TradingService.connect_account 7 (TradingService.init_state false cfgMock)
            ⟨"U1", "pw", "c"⟩).2.1
          (TradingService.mk_session_id "U1" 7) sampleReq).2.1
        (TradingService.mk_session_id "U1" 7) sampleReq).1 = .ok r₂ ∧
      r₁.order_id = "mock_order_1000" ∧
      r₂.order_id = "mock_order_1001" := by
  obtain ⟨hinit, r₁, r₂, h₁, h₂, e₁, e₂, _⟩ :=
    C7_mock_order_id_counter false cfgMock (fun _ => true) cfgMock 8 9 (.ok "x") (.ok "x")
      (TradingService.connect_account 7 (TradingService.init_state false cfgMock)
        ⟨"U1", "pw", "c"⟩).2.1
      (TradingService.mk_session_id "U1" 7) sampleReq sampleReq
      ⟨TradingService.mk_account_info "U1", 7⟩ (by decide) rfl rfl (by decide)
  exact ⟨hinit, r₁, r₂, h₁, h₂, by rw [e₁]; decide, by rw [e₂]; decide⟩

/-- **C8**: round-trip: after submitting a mock order on a connected session
(real trading not permitted), a degraded `get_orders` returns the Order Book
and includes that order with status SUBMITTED; after `cancel_order` for the
same id, the same lookup shows the order with status CANCELLED. -/
theorem C8_submit_cancel_round_trip
    (env : ExtEnv) (cfg : Settings) (valid : String → Bool)
    (now₀ now₁ now₂ : Nat) (ext : Except String String) (extc : Except String Bool)
    (acct_ok₁ acct_ok₂ : Bool) (msg₁ msg₂ : String)
    (st : TradingState) (session_id : String) (req : OrderRequest) (sess : SessionData)
    (hconn : dictGet st.connected_accounts session_id = some sess)
    (hvalid : valid req.stock_code = true)
    (hreal : TradingService.should_use_real_trading cfg = false) :
    ∃ resp,
      (TradingService.submit_order valid cfg now₀ ext st session_id req).1 = .ok resp ∧
      resp.status = "SUBMITTED" ∧
      (TradingService.get_orders env cfg now₁ acct_ok₁ (.raises msg₁)
          (TradingService.submit_order valid cfg now₀ ext st session_id req).2.1
          session_id).1 =
        .ok ((TradingService.submit_order valid cfg now₀ ext st session_id
          req).2.1.orders.map Prod.snd) ∧
      resp ∈ (TradingService.submit_order valid cfg now₀ ext st session_id
        req).2.1.orders.map Prod.snd ∧
      (TradingService.cancel_order cfg extc
          (TradingService.submit_order valid cfg now₀ ext st session_id req).2.1
          session_id ⟨resp.order_id⟩).1 = .ok true ∧
      (TradingService.get_orders env cfg now₂ acct_ok₂ (.raises msg₂)
          (TradingService.cancel_order cfg extc
            (TradingService.submit_order valid cfg now₀ ext st session_id req).2.1
            session_id ⟨resp.order_id⟩).2.1
          session_id).1 =
        .ok ((TradingService.cancel_order cfg extc
            (TradingService.submit_order valid cfg now₀ ext st session_id req).2.1
            session_id ⟨resp.order_id⟩).2.1.orders.map Prod.snd) ∧
      { resp with status := "CANCELLED" } ∈
        (TradingService.cancel_order cfg extc
          (TradingService.submit_order valid cfg now₀ ext st session_id req).2.1
          session_id ⟨resp.order_id⟩).2.1.orders.map Prod.snd := by
  have hsub : TradingService.submit_order valid cfg now₀ ext st session_id req =
      (.ok (TradingService.get_mock_order_response now₀ st req).1,
       (TradingService.get_mock_order_response now₀ st req).2, []) := by
    simp [TradingService.submit_order, hconn, hvalid, hreal]
  have hconn₁ : dictGet
      (TradingService.get_mock_order_response now₀ st req).2.connected_accounts
      session_id = some sess := hconn
  have horder : dictGet (TradingService.get_mock_order_response now₀ st req).2.orders
      (TradingService.get_mock_order_response now₀ st req).1.order_id =
      some (TradingService.get_mock_order_response now₀ st req).1 := by
    simp [TradingService.get_mock_order_response, dictGet_dictSet_self]
  have hcan : TradingService.cancel_order cfg extc
      (TradingService.get_mock_order_response now₀ st req).2 session_id
      ⟨(TradingService.get_mock_order_response now₀ st req).1.order_id⟩ =
      (.ok true,
       { (TradingService.get_mock_order_response now₀ st req).2 with
          orders := TradingService.set_order_status
            (TradingService.get_mock_order_response now₀ st req).2.orders
            (TradingService.get_mock_order_response now₀ st req).1.order_id
            "CANCELLED" },
       []) := by
    simp only [TradingService.cancel_order, hconn₁, hreal, Bool.false_eq_true, if_true]
  have hcanc_get : dictGet (TradingService.set_order_status
      (TradingService.get_mock_order_response now₀ st req).2.orders
      (TradingService.get_mock_order_response now₀ st req).1.order_id "CANCELLED")
      (TradingService.get_mock_order_response now₀ st req).1.order_id =
      some { (TradingService.get_mock_order_response now₀ st req).1 with
        status := "CANCELLED" } := by
    rw [dictGet_set_order_status_self, horder]
    rfl
  have hconn₂ : dictGet
      ({ (TradingService.get_mock_order_response now₀ st req).2 with
          orders := TradingService.set_order_status
            (TradingService.get_mock_order_response now₀ st req).2.orders
            (TradingService.get_mock_order_response now₀ st req).1.order_id
            "CANCELLED" } : TradingState).connected_accounts
      session_id = some sess := hconn
  refine ⟨(TradingService.get_mock_order_response now₀ st req).1, ?_, ?_, ?_, ?_, ?_, ?_, ?_⟩
  · rw [hsub]
  · simp [TradingService.get_mock_order_response]
  · rw [hsub]
    exact get_orders_raises_fallback env cfg now₁ acct_ok₁ msg₁ _ session_id sess hconn₁
  · rw [hsub]
    exact mem_map_snd_of_dictGet _ _ _ horder
  · rw [hsub]
    simp only [hcan]
  · rw [hsub]
    simp only [hcan]
    exact get_orders_raises_fallback env cfg now₂ acct_ok₂ msg₂ _ session_id sess hconn₂
  · rw [hsub]
    simp only [hcan]
    exact mem_map_snd_of_dictGet _ _ _ hcanc_get

/-- Witness for C8 in MOCK mode on the sample state. -/
theorem C8_submit_cancel_round_trip_witness :
    ∃ resp,
      (TradingService.submit_order (fun _ => true) cfgMock 8 (.ok "x") sampleState "s1"
        sampleReq).1 = .ok resp ∧
      resp.status = "SUBMITTED" ∧
      (TradingService.get_orders ⟨false, none, none⟩ cfgMock 9 true (.raises "boom")
          (TradingService.submit_order (fun _ => true) cfgMock 8 (.ok "x") sampleState "s1"
            sampleReq).2.1 "s1").1 =
        .ok ((TradingService.submit_order (fun _ => true) cfgMock 8 (.ok "x") sampleState
          "s1" sampleReq).2.1.orders.map Prod.snd) ∧
      resp ∈ (TradingService.submit_order (fun _ => true) cfgMock 8 (.ok "x") sampleState
        "s1" sampleReq).2.1.orders.map Prod.snd ∧
      (TradingService.cancel_order cfgMock (.ok false)
          (TradingService.submit_order (fun _ => true) cfgMock 8 (.ok "x") sampleState "s1"
            sampleReq).2.1 "s1" ⟨resp.order_id⟩).1 = .ok true ∧
      (TradingService.get_orders ⟨false, none, none⟩ cfgMock 10 true (.raises "boom")
          (TradingService.cancel_order cfgMock (.ok false)
            (TradingService.submit_order (fun _ => true) cfgMock 8 (.ok "x") sampleState
              "s1" sampleReq).2.1 "s1" ⟨resp.order_id⟩).2.1 "s1").1 =
        .ok ((TradingService.cancel_order cfgMock (.ok false)
            (TradingService.submit_order (fun _ => true) cfgMock 8 (.ok "x") sampleState
              "s1" sampleReq).2.1 "s1" ⟨resp.order_id⟩).2.1.orders.map Prod.snd) ∧
      { resp with status := "CANCELLED" } ∈
        (TradingService.cancel_order cfgMock (.ok false)
          (TradingService.submit_order (fun _ => true) cfgMock 8 (.ok "x") sampleState
            "s1" sampleReq).2.1 "s1" ⟨resp.order_id⟩).2.1.orders.map Prod.snd :=
  C8_submit_cancel_round_trip ⟨false, none, none⟩ cfgMock (fun _ => true) 8 9 10
    (.ok "x") (.ok false) true true "boom" "boom" sampleState "s1" sampleReq
    sampleSession (by decide) rfl (by decide)

/-- **C9 counterexample**: the claim says credential validation is delegated
to the external client when real trading is active; but in PROD mode with the
flag set (real trading permitted), `connect_account` makes no external call
at all and its response is identical for two different passwords, so no
delegation occurs. -/
theorem C9_counterexample_no_delegation :
    TradingService.should_use_real_trading cfgProdFlag = true ∧
    (TradingService.connect_account 1
      (TradingService.init_state true cfgProdFlag) ⟨"U1", "right-pw", "c1"⟩).2.2 = [] ∧
    (TradingService.connect_account 1
      (TradingService.init_state true cfgProdFlag) ⟨"U1", "wrong-pw", "c2"⟩).2.2 = [] ∧
    (TradingService.connect_account 1
        (TradingService.init_state true cfgProdFlag) ⟨"U1", "right-pw", "c1"⟩).1 =
      (TradingService.connect_account 1
        (TradingService.init_state true cfgProdFlag) ⟨"U1", "wrong-pw", "c2"⟩).1 ∧
    (TradingService.connect_account 1
      (TradingService.init_state true cfgProdFlag) ⟨"U1", "wrong-pw", "c2"⟩).1.success =
      true := by
  decide

/-- **C9 (amended)**: `connect_account` always succeeds at the store level,
synthesizing the same plausible AccountInfo in every mode (credential
validation is never delegated to the external client, even when real trading
is active); it registers a session id derived from the account id and the
connect timestamp, distinct timestamps giving distinct ids; it returns
success=false only if an exception occurs during synthesis (no such path
exists) and never raises past this boundary. -/
theorem C9_connect_always_succeeds_no_delegation
    (now : Nat) (st : TradingState) (req : ConnectRequest) :
    (TradingService.connect_account now st req).1.success = true ∧
    (TradingService.connect_account now st req).1.message = "账户连接成功" ∧
    (TradingService.connect_account now st req).1.session_id =
      some (TradingService.mk_session_id req.account_id now) ∧
    (TradingService.connect_account now st req).1.account_info =
      some (TradingService.mk_account_info req.account_id) ∧
    (TradingService.connect_account now st req).2.2 = [] ∧
    dictGet (TradingService.connect_account now st req).2.1.connected_accounts
      (TradingService.mk_session_id req.account_id now) =
      some ⟨TradingService.mk_account_info req.account_id, now⟩ ∧
    (∀ now', now ≠ now' →
      TradingService.mk_session_id req.account_id now ≠
        TradingService.mk_session_id req.account_id now') := by
  refine ⟨rfl, rfl, rfl, rfl, rfl, ?_, ?_⟩
  · simp [TradingService.connect_account, dictGet_dictSet_self]
  · intro now' hne heq
    exact hne (mk_session_id_time_inj req.account_id heq)

/-- Witness for C9's amended theorem: concrete connect, and two distinct
timestamps give distinct session ids. -/
theorem C9_connect_always_succeeds_no_delegation_witness :
    (TradingService.connect_account 1 sampleState ⟨"U1", "pw", "c"⟩).1.success = true ∧
    dictGet (TradingService.connect_account 1 sampleState
        ⟨"U1", "pw", "c"⟩).2.1.connected_accounts
      (TradingService.mk_session_id "U1" 1) =
      some ⟨TradingService.mk_account_info "U1", 1⟩ ∧
    TradingService.mk_session_id "U1" 1 ≠ TradingService.mk_session_id "U1" 2 :=
  ⟨(C9_connect_always_succeeds_no_delegation 1 sampleState ⟨"U1", "pw", "c"⟩).1,
   (C9_connect_always_succeeds_no_delegation 1 sampleState ⟨"U1", "pw", "c"⟩).2.2.2.2.2.1,
   (C9_connect_always_succeeds_no_delegation 1 sampleState ⟨"U1", "pw", "c"⟩).2.2.2.2.2.2
     2 (by decide)⟩

/-- **C10**: `connect_account` is insensitive to the supplied credentials and
to the configured mode: any two connect requests with the same account id,
against any states (in particular states initialized under any modes,
including PROD with real trading allowed — the operation reads no
configuration at all), both succeed with the identical fixed AccountInfo
snapshot, and neither call performs any external call. -/
theorem C10_connect_credential_and_mode_insensitive
    (now₁ now₂ : Nat) (st₁ st₂ : TradingState) (req₁ req₂ : ConnectRequest)
    (hid : req₁.account_id = req₂.account_id) :
    (TradingService.connect_account now₁ st₁ req₁).1.success = true ∧
    (TradingService.connect_account now₂ st₂ req₂).1.success = true ∧
    (TradingService.connect_account now₁ st₁ req₁).1.account_info =
      (TradingService.connect_account now₂ st₂ req₂).1.account_info ∧
    (TradingService.connect_account now₁ st₁ req₁).1.account_info =
      some { account_id := req₁.account_id
             account_type := "SECURITY"
             account_name := "账户" ++ req₁.account_id
             status := "CONNECTED"
             balance := 1000000
             available_balance := 950000
             frozen_balance := 50000
             market_value := 800000
             total_asset := 1800000 } ∧
    (TradingService.connect_account now₁ st₁ req₁).2.2 = [] ∧
    (TradingService.connect_account now₂ st₂ req₂).2.2 = [] := by
  refine ⟨rfl, rfl, ?_, rfl, rfl, rfl⟩
  simp [TradingService.connect_account, TradingService.mk_account_info, hid]

/-- Witness for C10: same account id, different passwords and client ids, one
state initialized in MOCK mode and one in PROD-with-flag mode. -/
theorem C10_connect_credential_and_mode_insensitive_witness :
    (TradingService.connect_account 1 (TradingService.init_state false cfgMock)
      ⟨"U1", "pw-a", "c1"⟩).1.success = true ∧
    (TradingService.connect_account 2 (TradingService.init_state true cfgProdFlag)
      ⟨"U1", "pw-b", "c2"⟩).1.success = true ∧
    (TradingService.connect_account 1 (TradingService.init_state false cfgMock)
        ⟨"U1", "pw-a", "c1"⟩).1.account_info =
      (TradingService.connect_account 2 (TradingService.init_state true cfgProdFlag)
        ⟨"U1", "pw-b", "c2"⟩).1.account_info ∧
    (TradingService.connect_account 1 (TradingService.init_state false cfgMock)
        ⟨"U1", "pw-a", "c1"⟩).1.account_info =
      some { account_id := "U1"
             account_type := "SECURITY"
             account_name := "账户" ++ "U1"
             status := "CONNECTED"
             balance := 1000000
             available_balance := 950000
             frozen_balance := 50000
             market_value := 800000
             total_asset := 1800000 } ∧
    (TradingService.connect_account 1 (TradingService.init_state false cfgMock)
      ⟨"U1", "pw-a", "c1"⟩).2.2 = [] ∧
    (TradingService.connect_account 2 (TradingService.init_state true cfgProdFlag)
      ⟨"U1", "pw-b", "c2"⟩).2.2 = [] :=
  C10_connect_credential_and_mode_insensitive 1 2
    (TradingService.init_state false cfgMock) (TradingService.init_state true cfgProdFlag)
    ⟨"U1", "pw-a", "c1"⟩ ⟨"U1", "pw-b", "c2"⟩ rfl
